import Mathlib

/-!
Shallow embedding of the order-intake microservice (order-service/main.go)
and proofs about its POST /orders handler, its service locator and its
in-memory order store.

Modelling conventions:
* The Go `Order` struct becomes a Lean structure.  The Go slice field
  `ItemIDs []string` is modelled as `Option (List String)`: `none` stands
  for Go's nil slice, which is what JSON decoding produces for a missing
  or null `item_ids` field.
* The global map `var orders = make(map[string]Order)` becomes an
  association list with at most one entry per key; map assignment is
  `putStore`, map indexing is `getStore`.  Only lookup and size are
  observable, so the list order is irrelevant to the theorems.
* `uuid.GenerateUUID()` (hashicorp/go-uuid) reads 16 random bytes and
  formats them as 8-4-4-4-12 lowercase hex; on an entropy error it
  returns the empty string together with the error.  The randomness is
  an oracle argument of type `Except String (List Nat)`.
* JSON decoding of the request body is modelled by the inductive `Body`:
  either the body fails to decode (`malformed`), or it is an object whose
  three recognised fields are each present or absent.
* The handler's HTTP response is a status code plus an optional order
  body; the log statements of the Go code have no observable effect and
  are dropped.
-/

/-- The Go struct `Order` with fields ID, ItemIDs, Status.
`ItemIDs = none` models a nil Go slice. -/
structure Order where
  ID : String
  ItemIDs : Option (List String)
  Status : String
deriving DecidableEq, Repr

/-- The global order table `var orders = make(map[string]Order)`,
modelled as an association list with at most one entry per key. -/
abbrev Store := List (String × Order)

/-- Remove every entry with the given key (helper for map assignment). -/
def removeKey : Store → String → Store
  | [], _ => []
  | (k, o) :: rest, id => if k = id then removeKey rest id else (k, o) :: removeKey rest id

/-- Go map assignment `orders[id] = o`: insert or overwrite the entry at `id`. -/
def putStore (st : Store) (id : String) (o : Order) : Store :=
  (id, o) :: removeKey st id

/-- Go map indexing `orders[id]`, as an optional result. -/
def getStore : Store → String → Option Order
  | [], _ => none
  | (k, o) :: rest, id => if k = id then some o else getStore rest id

/-- `findService` from main.go: a switch that knows exactly one service
name and otherwise returns the error `service %s not found`. -/
def findService (serviceName : String) : Except String String :=
  if serviceName = "food-catalog-service" then
    .ok "http://food-catalog-service:8080"
  else
    .error ("service " ++ serviceName ++ " not found")

/-- One lowercase hex digit, as produced by Go's `%x` verb. -/
def hexChar (n : Nat) : Char :=
  if n < 10 then Char.ofNat (48 + n) else Char.ofNat (87 + n)

/-- Two lowercase hex digits for one byte. -/
def hexByte (b : Nat) : List Char :=
  [hexChar (b / 16), hexChar (b % 16)]

/-- Lowercase hex encoding of a byte sequence (`%x` on a Go byte slice). -/
def hexStr (l : List Nat) : String :=
  ⟨(l.map hexByte).flatten⟩

/-- `FormatUUID` of hashicorp/go-uuid on a 16-byte buffer:
`%x-%x-%x-%x-%x` over the byte groups 0:4, 4:6, 6:8, 8:10, 10:16. -/
def formatUUID (buf : List Nat) : String :=
  hexStr (buf.take 4) ++ "-" ++ hexStr ((buf.drop 4).take 2) ++ "-" ++
    hexStr ((buf.drop 6).take 2) ++ "-" ++ hexStr ((buf.drop 8).take 2) ++ "-" ++
    hexStr (buf.drop 10)

/-- `uuid.GenerateUUID()`: on an entropy error it returns `""` (with the
error, which the handler discards); on success it formats the 16 random
bytes supplied by the entropy oracle. -/
def generateUUID : Except String (List Nat) → String
  | .error _ => ""
  | .ok buf => formatUUID buf

/-- The request body as seen by `json.NewDecoder(r.Body).Decode(&newOrder)`:
either decoding fails, or the body is an object whose recognised fields
are each present or absent (a missing or null `item_ids` yields a nil
slice, i.e. `none`). -/
inductive Body where
  | malformed (msg : String)
  | object (id : Option String) (item_ids : Option (List String)) (status : Option String)
deriving DecidableEq, Repr

/-- The result of decoding the body into the zero-valued `var newOrder Order`:
absent string fields stay `""`, an absent or null item list stays nil. -/
def decodeBody : Body → Except String Order
  | .malformed msg => .error msg
  | .object oid oitems ostat => .ok ⟨oid.getD "", oitems, ostat.getD ""⟩

/-- An HTTP response of the handler: status code and optional order body. -/
structure Response where
  code : Nat
  body : Option Order
deriving DecidableEq, Repr

/-- The POST /orders handler from main.go, with the service locator passed
as an argument (the deployed instantiation is `findService`, called with
the hardcoded name `food-catalog-service`, line 59) and the UUID entropy
as an oracle.  Decode failure responds 400; locator failure responds 500;
otherwise the order gets a generated ID and status `received`, is written
to the store and echoed back with 201. -/
def postOrders (findSvc : String → Except String String)
    (gen : Except String (List Nat)) (st : Store) (body : Body) :
    Response × Store :=
  match decodeBody body with
  | .error _msg => (⟨400, none⟩, st)
  | .ok newOrder =>
    match findSvc "food-catalog-service" with
    | .error _ => (⟨500, none⟩, st)
    | .ok _catalogAddr =>
      let orderID := generateUUID gen
      let stored : Order := { newOrder with ID := orderID, Status := "received" }
      (⟨201, some stored⟩, putStore st orderID stored)

/-- Modelled from the spec: the repository has no retrieval endpoint, but
the spec requires `GET /orders/:id` — "Operation get(id) -> Order |
NotFoundError: delegates to OrderStore" — returning `200 OK` with the
order body, or `404 Not Found`.  It delegates to the order map and has no
side effect on the store. -/
def getOrderHandler (st : Store) (id : String) : Response :=
  match getStore st id with
  | some o => ⟨200, some o⟩
  | none => ⟨404, none⟩

/-- One inbound request of the process lifetime: an order submission
(with its entropy oracle), a retrieval, or the health probe. -/
inductive Op where
  | post (gen : Except String (List Nat)) (body : Body)
  | getOrder (id : String)
  | health
deriving Repr

/-- The effect of one request on the order store.  Retrieval and the
health probe never write. -/
def stepStore (st : Store) : Op → Store
  | .post gen body => (postOrders findService gen st body).2
  | .getOrder _ => st
  | .health => st

/-- The store after a sequence of requests. -/
def runOps (st : Store) (ops : List Op) : Store :=
  ops.foldl stepStore st

/-- Run a sequence of submissions, collecting the store and the responses
in order. -/
def runPosts : Store → List (Except String (List Nat) × Body) → Store × List Response
  | st, [] => (st, [])
  | st, (gen, body) :: rest =>
    let r := postOrders findService gen st body
    let tail := runPosts r.2 rest
    (tail.1, r.1 :: tail.2)

/-- The identifiers carried by the order bodies of a response list. -/
def assignedIds (resps : List Response) : List String :=
  resps.filterMap (fun r => r.body.map Order.ID)

/-- The status vocabulary of the order lifecycle. -/
def statusVocab : List String :=
  ["received", "validated", "confirmed", "rejected"]

/-- The transition graph of the order lifecycle:
received → validated → confirmed, and received → rejected. -/
def statusEdge (a b : String) : Prop :=
  (a = "received" ∧ b = "validated") ∨
    (a = "validated" ∧ b = "confirmed") ∨
    (a = "received" ∧ b = "rejected")

deriving instance DecidableEq for Except

/-! Basic store lemmas: Go map assignment and indexing. -/

theorem getStore_putStore_self (st : Store) (id : String) (o : Order) :
    getStore (putStore st id o) id = some o := by
  simp [putStore, getStore]

theorem getStore_removeKey_ne (st : Store) (id k : String) (h : k ≠ id) :
    getStore (removeKey st id) k = getStore st k := by
  induction st with
  | nil => rfl
  | cons p rest ih =>
    obtain ⟨pk, po⟩ := p
    by_cases hpk : pk = id
    · subst hpk
      have h1 : removeKey ((pk, po) :: rest) pk = removeKey rest pk := by
        simp [removeKey]
      rw [h1, ih]
      simp [getStore, Ne.symm h]
    · simp only [removeKey, if_neg hpk, getStore]
      by_cases hk : pk = k
      · rw [if_pos hk, if_pos hk]
      · rw [if_neg hk, if_neg hk, ih]

theorem getStore_putStore_ne (st : Store) (id k : String) (o : Order) (h : k ≠ id) :
    getStore (putStore st id o) k = getStore st k := by
  simp only [putStore, getStore]
  rw [if_neg (Ne.symm h), getStore_removeKey_ne st id k h]

theorem removeKey_eq_of_fresh (st : Store) (id : String) (h : getStore st id = none) :
    removeKey st id = st := by
  induction st with
  | nil => rfl
  | cons p rest ih =>
    obtain ⟨pk, po⟩ := p
    by_cases hpk : pk = id
    · simp [getStore, hpk] at h
    · simp [getStore, hpk] at h
      simp [removeKey, hpk, ih h]

theorem length_putStore_fresh (st : Store) (id : String) (o : Order)
    (h : getStore st id = none) :
    (putStore st id o).length = st.length + 1 := by
  simp [putStore, removeKey_eq_of_fresh st id h]

/-! The deployed service locator resolves the catalog name. -/

theorem findService_catalog :
    findService "food-catalog-service" = .ok "http://food-catalog-service:8080" := rfl

/-- Shape of the handler on a decodable body: the deployed locator
resolves, so the order gets the generated ID and status `received`, is
stored under that ID and echoed with 201. -/
theorem postOrders_object (gen : Except String (List Nat)) (st : Store)
    (oid : Option String) (oitems : Option (List String)) (ostat : Option String) :
    postOrders findService gen st (.object oid oitems ostat) =
      (⟨201, some ⟨generateUUID gen, oitems, "received"⟩⟩,
        putStore st (generateUUID gen) ⟨generateUUID gen, oitems, "received"⟩) := by
  simp [postOrders, decodeBody, findService]

/-- Shape of the handler on an undecodable body: 400, store untouched. -/
theorem postOrders_malformed (gen : Except String (List Nat)) (st : Store)
    (msg : String) :
    postOrders findService gen st (.malformed msg) = (⟨400, none⟩, st) := by
  simp [postOrders, decodeBody]

/-- C6: `findService` returns the catalog address exactly for the one
registered name `food-catalog-service`, and for every other name returns
the error `service <name> not found`, which carries the requested name.
The locator is a pure lookup — it is a function of its argument alone and
touches no store. -/
theorem C6_findService_contract (s : String) :
    (findService s = .ok "http://food-catalog-service:8080" ↔ s = "food-catalog-service") ∧
    (s ≠ "food-catalog-service" →
      findService s = .error ("service " ++ s ++ " not found")) := by
  constructor
  · constructor
    · intro h
      by_cases hs : s = "food-catalog-service"
      · exact hs
      · simp [findService, hs] at h
    · intro hs
      subst hs
      rfl
  · intro hs
    simp [findService, hs]

/-- Closed instance of `C6_findService_contract`: the unregistered name
`cafe-ui` is refused with an error naming it, and the registered name
resolves to the catalog address. -/
theorem C6_findService_contract_witness :
    findService "cafe-ui" = .error ("service " ++ "cafe-ui" ++ " not found") ∧
    findService "food-catalog-service" = .ok "http://food-catalog-service:8080" :=
  ⟨(C6_findService_contract "cafe-ui").2 (by decide),
   (C6_findService_contract "food-catalog-service").1.mpr rfl⟩

/-- C8: any caller-supplied `id` or `status` field of the payload is
ignored: for every decoded object body the handler returns 201 with an
order whose ID is the freshly generated identifier and whose status is
`received`, stores exactly that order, and the outcome does not depend on
the payload's id or status fields at all. -/
theorem C8_payload_id_status_ignored (gen : Except String (List Nat)) (st : Store)
    (oid : Option String) (oitems : Option (List String)) (ostat : Option String) :
    postOrders findService gen st (.object oid oitems ostat) =
      (⟨201, some ⟨generateUUID gen, oitems, "received"⟩⟩,
        putStore st (generateUUID gen) ⟨generateUUID gen, oitems, "received"⟩) := by
  simp [postOrders, decodeBody, findService]

/-- C10: when identifier generation fails, the handler discards the error
(`orderID, _ := uuid.GenerateUUID()`): the submission still succeeds with
201 and the order is stored and returned under the produced identifier,
the empty string; no error response is ever sent on this path. -/
theorem C10_uuid_error_ignored (e : String) (st : Store) (oid : Option String)
    (oitems : Option (List String)) (ostat : Option String) :
    postOrders findService (.error e) st (.object oid oitems ostat) =
      (⟨201, some ⟨"", oitems, "received"⟩⟩, putStore st "" ⟨"", oitems, "received"⟩) := by
  simp [postOrders, decodeBody, findService, generateUUID]

/-- C2: whenever the service locator fails to resolve the catalog name,
the handler aborts with 500 Internal Server Error and returns the store
unchanged: no order record is created on this path. -/
theorem C2_dependency_gate (findSvc : String → Except String String) (msg : String)
    (gen : Except String (List Nat)) (st : Store) (oid : Option String)
    (oitems : Option (List String)) (ostat : Option String)
    (h : findSvc "food-catalog-service" = .error msg) :
    postOrders findSvc gen st (.object oid oitems ostat) = (⟨500, none⟩, st) := by
  simp [postOrders, decodeBody, h]

/-- Closed instance of `C2_dependency_gate`: a locator whose registry is
down makes the submission answer 500 and leaves the empty store empty. -/
theorem C2_dependency_gate_witness :
    postOrders (fun _ => .error "registry down") (.ok (List.replicate 16 0)) []
      (.object none (some ["item-1"]) none) = (⟨500, none⟩, []) :=
  C2_dependency_gate (fun _ => .error "registry down") "registry down"
    (.ok (List.replicate 16 0)) [] none (some ["item-1"]) none rfl

/-- A successfully formatted UUID is never the empty string: the format
string `%x-%x-%x-%x-%x` contains four dashes whatever the buffer holds. -/
theorem formatUUID_ne_empty (buf : List Nat) : formatUUID buf ≠ "" := by
  intro h
  have hlen := congrArg String.length h
  have hdash : ("-" : String).length = 1 := rfl
  simp [formatUUID, String.length_append, hdash] at hlen

/-- C1 (amended): the only rejected submissions are bodies that fail JSON
decoding, answered 400 with the store unchanged.  A payload whose
item-list field is missing or null decodes successfully into a nil slice
and is NOT rejected: the handler responds 201 and creates a retrievable
order with a nil item list — no item-list validation gate exists. -/
theorem C1_validation_gate :
    (∀ gen st msg,
      postOrders findService gen st (.malformed msg) = (⟨400, none⟩, st)) ∧
    (∀ gen st oid ostat,
      postOrders findService gen st (.object oid none ostat) =
        (⟨201, some ⟨generateUUID gen, none, "received"⟩⟩,
          putStore st (generateUUID gen) ⟨generateUUID gen, none, "received"⟩) ∧
      getOrderHandler (putStore st (generateUUID gen)
          ⟨generateUUID gen, none, "received"⟩) (generateUUID gen) =
        ⟨200, some ⟨generateUUID gen, none, "received"⟩⟩) := by
  constructor
  · intro gen st msg
    simp [postOrders, decodeBody]
  · intro gen st oid ostat
    constructor
    · simp [postOrders, decodeBody, findService]
    · simp [getOrderHandler, getStore_putStore_self]

/-- Counterexample to C1 as stated: the payload with no item-list field
(decoded: nil slice) is answered 201, not 400, and the order it creates
is retrievable afterwards. -/
theorem C1_counterexample :
    (postOrders findService (.ok (List.replicate 16 0)) []
        (.object none none none)).1.code = 201 ∧
    getOrderHandler (postOrders findService (.ok (List.replicate 16 0)) []
        (.object none none none)).2 "00000000-0000-0000-0000-000000000000" =
      ⟨200, some ⟨"00000000-0000-0000-0000-000000000000", none, "received"⟩⟩ := by
  decide

/-- C5 (amended): for every submission with a decodable payload carrying
an item list, when identifier generation succeeds the handler responds
201 Created with an order whose ID is the freshly formatted UUID — never
empty — whose status is `received` and whose item list is exactly the one
supplied; that same order is written to the store and is retrievable. -/
theorem C5_success_response (buf : List Nat) (st : Store) (oid : Option String)
    (l : List String) (ostat : Option String) :
    postOrders findService (.ok buf) st (.object oid (some l) ostat) =
      (⟨201, some ⟨formatUUID buf, some l, "received"⟩⟩,
        putStore st (formatUUID buf) ⟨formatUUID buf, some l, "received"⟩) ∧
    formatUUID buf ≠ "" ∧
    getStore (putStore st (formatUUID buf) ⟨formatUUID buf, some l, "received"⟩)
        (formatUUID buf) = some ⟨formatUUID buf, some l, "received"⟩ := by
  refine ⟨?_, formatUUID_ne_empty buf, getStore_putStore_self _ _ _⟩
  simp [postOrders, decodeBody, findService, generateUUID]

/-- Counterexample to C5 as stated: when the entropy read fails the
submission still succeeds (201 Created) but the response body carries an
empty `id`, contradicting the claimed non-empty identifier. -/
theorem C5_counterexample :
    (postOrders findService (.error "entropy read failed") []
        (.object none (some ["item-1", "item-2"]) none)).1.code = 201 ∧
    ((postOrders findService (.error "entropy read failed") []
        (.object none (some ["item-1", "item-2"]) none)).1.body.map Order.ID) =
      some "" := by
  decide

/-! Preservation of other keys across whole request sequences. -/

/-- A request whose generated identifier differs from `k` (or which is not
a submission at all) leaves the entry at `k` unchanged. -/
theorem getStore_stepStore_ne (st : Store) (op : Op) (k : String)
    (h : ∀ gen body, op = .post gen body → generateUUID gen ≠ k) :
    getStore (stepStore st op) k = getStore st k := by
  cases op with
  | post gen body =>
    cases body with
    | malformed msg =>
      simp [stepStore, postOrders_malformed]
    | object oid oitems ostat =>
      simp only [stepStore, postOrders_object]
      exact getStore_putStore_ne st (generateUUID gen) k
        ⟨generateUUID gen, oitems, "received"⟩
        (Ne.symm (h gen (.object oid oitems ostat) rfl))
  | getOrder id => rfl
  | health => rfl

/-- A sequence of requests none of which generates the identifier `k`
leaves the entry at `k` unchanged. -/
theorem getStore_runOps_ne (st : Store) (ops : List Op) (k : String)
    (h : ∀ gen body, Op.post gen body ∈ ops → generateUUID gen ≠ k) :
    getStore (runOps st ops) k = getStore st k := by
  induction ops generalizing st with
  | nil => rfl
  | cons op rest ih =>
    have h1 : getStore (runOps (stepStore st op) rest) k = getStore (stepStore st op) k :=
      ih (stepStore st op) (fun gen body hmem => h gen body (List.mem_cons_of_mem op hmem))
    have h2 := getStore_stepStore_ne st op k
      (fun gen body hop => h gen body (hop ▸ List.mem_cons_self op rest))
    exact h1.trans h2

/-- C3 (amended): a successfully submitted order is immediately
retrievable by its ID, and it stays retrievable unchanged across every
later request sequence in which no submission generates the same
identifier.  (Unconditional persistence fails: the handler ignores
identifier-generation errors, so a later colliding identifier — e.g. the
empty string produced by two failed generations — overwrites the record,
see the counterexample.) -/
theorem C3_roundtrip (gen : Except String (List Nat)) (st st1 : Store)
    (body : Body) (o : Order)
    (hpost : postOrders findService gen st body = (⟨201, some o⟩, st1))
    (ops : List Op)
    (hfresh : ∀ g b, Op.post g b ∈ ops → generateUUID g ≠ o.ID) :
    getStore st1 o.ID = some o ∧ getStore (runOps st1 ops) o.ID = some o := by
  have hbase : getStore st1 o.ID = some o := by
    cases body with
    | malformed msg =>
      rw [postOrders_malformed] at hpost
      have := congrArg (fun p => p.1.code) hpost
      simp at this
    | object oid oitems ostat =>
      rw [postOrders_object] at hpost
      rw [Prod.mk.injEq, Response.mk.injEq] at hpost
      obtain ⟨⟨-, ho⟩, hst⟩ := hpost
      rw [Option.some.injEq] at ho
      subst ho
      subst hst
      exact getStore_putStore_self st (generateUUID gen) _
  refine ⟨hbase, ?_⟩
  rw [getStore_runOps_ne st1 ops o.ID hfresh]
  exact hbase

/-- Closed instance of `C3_roundtrip`: a stored order survives a later
submission with a different generated identifier, a retrieval and a
health probe. -/
theorem C3_roundtrip_witness :
    getStore [("00000000-0000-0000-0000-000000000000",
        ⟨"00000000-0000-0000-0000-000000000000", some ["item-1"], "received"⟩)]
      "00000000-0000-0000-0000-000000000000" =
      some ⟨"00000000-0000-0000-0000-000000000000", some ["item-1"], "received"⟩ ∧
    getStore (runOps [("00000000-0000-0000-0000-000000000000",
        ⟨"00000000-0000-0000-0000-000000000000", some ["item-1"], "received"⟩)]
        [Op.post (.ok (List.replicate 16 1)) (.object none (some ["x"]) none),
         Op.getOrder "00000000-0000-0000-0000-000000000000", Op.health])
      "00000000-0000-0000-0000-000000000000" =
      some ⟨"00000000-0000-0000-0000-000000000000", some ["item-1"], "received"⟩ :=
  C3_roundtrip (.ok (List.replicate 16 0)) []
    [("00000000-0000-0000-0000-000000000000",
      ⟨"00000000-0000-0000-0000-000000000000", some ["item-1"], "received"⟩)]
    (.object none (some ["item-1"]) none)
    ⟨"00000000-0000-0000-0000-000000000000", some ["item-1"], "received"⟩
    (by decide)
    [Op.post (.ok (List.replicate 16 1)) (.object none (some ["x"]) none),
     Op.getOrder "00000000-0000-0000-0000-000000000000", Op.health]
    (by
      intro g b hmem
      simp only [List.mem_cons, List.not_mem_nil, or_false] at hmem
      rcases hmem with h1 | h2 | h3
      · injection h1 with hg hb
        subst hg
        decide
      · exact Op.noConfusion h2
      · exact Op.noConfusion h3)

/-- Counterexample to C3 as stated: after two submissions whose identifier
generation failed, both orders were stored under the identifier `""`; the
second submission overwrote the first order, so `get` no longer returns
the first successfully submitted order. -/
theorem C3_counterexample :
    postOrders findService (.error "e1") [] (.object none (some ["a"]) none) =
      (⟨201, some ⟨"", some ["a"], "received"⟩⟩,
        [("", ⟨"", some ["a"], "received"⟩)]) ∧
    getStore (runOps [("", ⟨"", some ["a"], "received"⟩)]
        [Op.post (.error "e2") (.object none (some ["b"]) none)]) "" =
      some ⟨"", some ["b"], "received"⟩ ∧
    (⟨"", some ["b"], "received"⟩ : Order) ≠ ⟨"", some ["a"], "received"⟩ := by
  decide

/-! Status invariant over whole process runs. -/

/-- A lookup in an updated store yields either the new order or an order
that was already present. -/
theorem getStore_putStore_cases (st : Store) (id k : String) (o v : Order)
    (h : getStore (putStore st id o) k = some v) :
    v = o ∨ getStore st k = some v := by
  by_cases hk : k = id
  · subst hk
    rw [getStore_putStore_self] at h
    exact Or.inl (Option.some.inj h).symm
  · rw [getStore_putStore_ne st id k o hk] at h
    exact Or.inr h

/-- Every order the handler ever writes has status `received`, so a store
whose orders all have status `received` keeps that property across any
request sequence. -/
theorem status_received_invariant (ops : List Op) (st : Store)
    (hst : ∀ id o, getStore st id = some o → o.Status = "received") :
    ∀ id o, getStore (runOps st ops) id = some o → o.Status = "received" := by
  induction ops generalizing st with
  | nil => exact hst
  | cons op rest ih =>
    apply ih
    intro id o h
    cases op with
    | post gen body =>
      cases body with
      | malformed msg =>
        simp only [stepStore, postOrders_malformed] at h
        exact hst id o h
      | object oid oitems ostat =>
        simp only [stepStore, postOrders_object] at h
        rcases getStore_putStore_cases _ _ _ _ _ h with hv | hv
        · rw [hv]
        · exact hst id o hv
    | getOrder i => exact hst id o h
    | health => exact hst id o h

/-- C7: every order ever present in the store carries a status from the
lifecycle vocabulary (in this minimal implementation always the initial
state `received`), and across any request the status of a stored order
never changes — in particular it only ever moves along the reflexive
closure of the transition graph, never outside it. -/
theorem C7_status_vocabulary :
    (∀ ops id o, getStore (runOps [] ops) id = some o → o.Status ∈ statusVocab) ∧
    (∀ ops op id o o₂,
      getStore (runOps [] ops) id = some o →
      getStore (stepStore (runOps [] ops) op) id = some o₂ →
      o₂.Status = o.Status ∨ statusEdge o.Status o₂.Status) := by
  have hempty : ∀ id o, getStore ([] : Store) id = some o → o.Status = "received" := by
    intro id o h
    simp [getStore] at h
  have hinv : ∀ ops id o, getStore (runOps [] ops) id = some o → o.Status = "received" :=
    fun ops => status_received_invariant ops [] hempty
  constructor
  · intro ops id o h
    rw [hinv ops id o h]
    decide
  · intro ops op id o o₂ h h₂
    left
    have h1 := hinv ops id o h
    have h2 : o₂.Status = "received" := by
      apply hinv (ops ++ [op]) id o₂
      show getStore ((ops ++ [op]).foldl stepStore []) id = some o₂
      rw [List.foldl_append]
      exact h₂
    rw [h1, h2]

/-- Closed instance of `C7_status_vocabulary`: the order created by one
submission has a vocabulary status, and a subsequent health probe leaves
that status where it was. -/
theorem C7_status_vocabulary_witness :
    (⟨"00000000-0000-0000-0000-000000000000", some ["item-1"], "received"⟩ : Order).Status
      ∈ statusVocab ∧
    ((⟨"00000000-0000-0000-0000-000000000000", some ["item-1"], "received"⟩ : Order).Status =
        (⟨"00000000-0000-0000-0000-000000000000", some ["item-1"], "received"⟩ : Order).Status ∨
      statusEdge
        (⟨"00000000-0000-0000-0000-000000000000", some ["item-1"], "received"⟩ : Order).Status
        (⟨"00000000-0000-0000-0000-000000000000", some ["item-1"], "received"⟩ : Order).Status) :=
  ⟨C7_status_vocabulary.1
      [Op.post (.ok (List.replicate 16 0)) (.object none (some ["item-1"]) none)]
      "00000000-0000-0000-0000-000000000000"
      ⟨"00000000-0000-0000-0000-000000000000", some ["item-1"], "received"⟩ (by decide),
    C7_status_vocabulary.2
      [Op.post (.ok (List.replicate 16 0)) (.object none (some ["item-1"]) none)]
      Op.health "00000000-0000-0000-0000-000000000000"
      ⟨"00000000-0000-0000-0000-000000000000", some ["item-1"], "received"⟩
      ⟨"00000000-0000-0000-0000-000000000000", some ["item-1"], "received"⟩
      (by decide) (by decide)⟩

/-! Frame conditions of a single submission. -/

/-- C9 (amended): each submission touches at most the key of its generated
identifier.  A body that fails decoding leaves the store unchanged; a
locator failure leaves the store unchanged; on success every key other
than the generated identifier keeps its value, the generated identifier
maps to the new order, and when that identifier was not yet present the
store grows by exactly one entry.  (Unconditional growth fails: a
colliding identifier overwrites, see the counterexample.) -/
theorem C9_frame :
    (∀ gen st msg, (postOrders findService gen st (.malformed msg)).2 = st) ∧
    (∀ (findSvc : String → Except String String) msg gen st body,
      findSvc "food-catalog-service" = .error msg →
      (postOrders findSvc gen st body).2 = st) ∧
    (∀ gen st oid oitems ostat k, k ≠ generateUUID gen →
      getStore (postOrders findService gen st (.object oid oitems ostat)).2 k =
        getStore st k) ∧
    (∀ gen st oid oitems ostat,
      getStore (postOrders findService gen st (.object oid oitems ostat)).2
          (generateUUID gen) =
        some ⟨generateUUID gen, oitems, "received"⟩) ∧
    (∀ gen st oid oitems ostat, getStore st (generateUUID gen) = none →
      ((postOrders findService gen st (.object oid oitems ostat)).2).length =
        st.length + 1) := by
  refine ⟨?_, ?_, ?_, ?_, ?_⟩
  · intro gen st msg
    rw [postOrders_malformed]
  · intro findSvc msg gen st body h
    cases body with
    | malformed m => simp [postOrders, decodeBody]
    | object oid oitems ostat => simp [postOrders, decodeBody, h]
  · intro gen st oid oitems ostat k hk
    rw [postOrders_object]
    exact getStore_putStore_ne st (generateUUID gen) k _ hk
  · intro gen st oid oitems ostat
    rw [postOrders_object]
    exact getStore_putStore_self st (generateUUID gen) _
  · intro gen st oid oitems ostat h
    rw [postOrders_object]
    exact length_putStore_fresh st (generateUUID gen) _ h

/-- Closed instance of `C9_frame`: a malformed body and a failed locator
leave the empty store empty; one successful submission leaves a foreign
key absent, maps its generated identifier to the new order, and grows the
store from zero to one entry. -/
theorem C9_frame_witness :
    (postOrders findService (.ok (List.replicate 16 0)) [] (.malformed "unexpected EOF")).2
      = [] ∧
    (postOrders (fun _ => .error "registry down") (.ok (List.replicate 16 0)) []
        (.object none (some ["a"]) none)).2 = [] ∧
    getStore (postOrders findService (.ok (List.replicate 16 0)) []
        (.object none (some ["a"]) none)).2 "some-other-id" =
      getStore ([] : Store) "some-other-id" ∧
    getStore (postOrders findService (.ok (List.replicate 16 0)) []
        (.object none (some ["a"]) none)).2 (generateUUID (.ok (List.replicate 16 0))) =
      some ⟨generateUUID (.ok (List.replicate 16 0)), some ["a"], "received"⟩ ∧
    ((postOrders findService (.ok (List.replicate 16 0)) []
        (.object none (some ["a"]) none)).2).length = ([] : Store).length + 1 :=
  ⟨C9_frame.1 (.ok (List.replicate 16 0)) [] "unexpected EOF",
    C9_frame.2.1 (fun _ => .error "registry down") "registry down"
      (.ok (List.replicate 16 0)) [] (.object none (some ["a"]) none) rfl,
    C9_frame.2.2.1 (.ok (List.replicate 16 0)) [] none (some ["a"]) none
      "some-other-id" (by decide),
    C9_frame.2.2.2.1 (.ok (List.replicate 16 0)) [] none (some ["a"]) none,
    C9_frame.2.2.2.2 (.ok (List.replicate 16 0)) [] none (some ["a"]) none rfl⟩

/-- Counterexample to C9 as stated: when two successive submissions both
store under the identifier `""` (failed generations), the second one is
still answered 201 but adds no entry — the store stays at one entry, so a
successful submit does not always add exactly one entry. -/
theorem C9_counterexample :
    ((postOrders findService (.error "e1") [] (.object none (some ["a"]) none)).2).length
      = 1 ∧
    (postOrders findService (.error "e2")
        (postOrders findService (.error "e1") [] (.object none (some ["a"]) none)).2
        (.object none (some ["b"]) none)).1.code = 201 ∧
    ((postOrders findService (.error "e2")
        (postOrders findService (.error "e1") [] (.object none (some ["a"]) none)).2
        (.object none (some ["b"]) none)).2).length = 1 := by
  decide

/-! Identifier assignment across a sequence of submissions. -/

/-- When every body decodes, every submission in the sequence succeeds and
the responses carry exactly the generated identifiers, in order. -/
theorem assignedIds_runPosts (st : Store)
    (reqs : List (Except String (List Nat) × Body))
    (hdecode : ∀ p ∈ reqs, (decodeBody p.2).isOk = true) :
    assignedIds (runPosts st reqs).2 = reqs.map (fun p => generateUUID p.1) := by
  induction reqs generalizing st with
  | nil => rfl
  | cons p rest ih =>
    obtain ⟨gen, body⟩ := p
    have hb := hdecode ⟨gen, body⟩ (List.mem_cons_self _ _)
    cases body with
    | malformed msg => simp [decodeBody, Except.isOk, Except.toBool] at hb
    | object oid oitems ostat =>
      have ih' := ih
        (putStore st (generateUUID gen) ⟨generateUUID gen, oitems, "received"⟩)
        (fun q hq => hdecode q (List.mem_cons_of_mem _ hq))
      simp only [runPosts, postOrders_object, assignedIds, List.filterMap_cons,
        Option.map_some, List.map_cons] at ih' ⊢
      simp [ih']

/-- C4 (amended): for every sequence of submissions with decodable bodies
in which every identifier generation succeeds and the generated
identifiers are pairwise distinct — the strong-random-UUID assumption the
spec makes — the assigned identifiers number exactly N, are pairwise
distinct, and none is blank.  (Unconditionally the claim fails: the
handler ignores generation errors, so failed generations assign the blank
identifier repeatedly, see the counterexample.) -/
theorem C4_unique_ids (st : Store)
    (reqs : List (Except String (List Nat) × Body))
    (hdecode : ∀ p ∈ reqs, (decodeBody p.2).isOk = true)
    (hgen : ∀ p ∈ reqs, p.1.isOk = true)
    (hdistinct : (reqs.map (fun p => generateUUID p.1)).Nodup) :
    (assignedIds (runPosts st reqs).2).length = reqs.length ∧
    (assignedIds (runPosts st reqs).2).Nodup ∧
    ∀ id ∈ assignedIds (runPosts st reqs).2, id ≠ "" := by
  have he := assignedIds_runPosts st reqs hdecode
  refine ⟨by rw [he, List.length_map], by rw [he]; exact hdistinct, ?_⟩
  rw [he]
  intro id hid
  obtain ⟨p, hp, hpe⟩ := List.mem_map.mp hid
  have hok := hgen p hp
  cases hc : p.1 with
  | error e => rw [hc] at hok; simp [Except.isOk, Except.toBool] at hok
  | ok buf =>
    rw [← hpe, hc]
    exact formatUUID_ne_empty buf

/-- Closed instance of `C4_unique_ids`: two submissions with distinct
successful generations yield two distinct non-blank identifiers. -/
theorem C4_unique_ids_witness :
    (assignedIds (runPosts []
        [(.ok (List.replicate 16 0), .object none (some ["a"]) none),
         (.ok (List.replicate 16 1), .object none (some ["b"]) none)]).2).length = 2 ∧
    (assignedIds (runPosts []
        [(.ok (List.replicate 16 0), .object none (some ["a"]) none),
         (.ok (List.replicate 16 1), .object none (some ["b"]) none)]).2).Nodup ∧
    ∀ id ∈ assignedIds (runPosts []
        [(.ok (List.replicate 16 0), .object none (some ["a"]) none),
         (.ok (List.replicate 16 1), .object none (some ["b"]) none)]).2, id ≠ "" :=
  C4_unique_ids []
    [(.ok (List.replicate 16 0), .object none (some ["a"]) none),
     (.ok (List.replicate 16 1), .object none (some ["b"]) none)]
    (by decide) (by decide) (by decide)

/-- Counterexample to C4 as stated: two submissions whose identifier
generation fails both succeed with 201, yet both are assigned the blank
identifier — the identifier set has one member, not two, the identifier
is blank, and the second submission reuses the first one's identifier. -/
theorem C4_counterexample :
    (∀ r ∈ (runPosts []
        [((.error "e1" : Except String (List Nat)), .object none (some ["a"]) none),
         ((.error "e2" : Except String (List Nat)), .object none (some ["b"]) none)]).2,
      r.code = 201) ∧
    assignedIds (runPosts []
        [((.error "e1" : Except String (List Nat)), .object none (some ["a"]) none),
         ((.error "e2" : Except String (List Nat)), .object none (some ["b"]) none)]).2 =
      ["", ""] ∧
    (assignedIds (runPosts []
        [((.error "e1" : Except String (List Nat)), .object none (some ["a"]) none),
         ((.error "e2" : Except String (List Nat)), .object none (some ["b"]) none)]).2).dedup.length
      = 1 := by
  decide
